import Mathlib

/-!
Verification development for the Personal Library Tracker backend.

The definitions below are a shallow embedding of the backend source:
* the Book schema and its save middleware (backend/models/Book.js, given as
  src/unnamed/part_001),
* the User schema's stats snapshot and `updateStats` method
  (src/backend/models/User.js),
* the Joi-validated books router (src/unnamed/part_003): POST /, PUT /:id,
  DELETE /:id, GET /:id, GET /search, GET /search-external,
* the multer upload middleware (src/unnamed/part_000).

Mongoose semantics that the embedding relies on: `findOneAndUpdate` and
`findOneAndDelete` are query middleware; the document middleware registered
with `schema.pre('save')` / `schema.post('save')` runs only on
`document.save()` and does not run for `findOneAndUpdate`.  The repository
itself registers `post('findOneAndDelete')` separately for exactly this
reason.  Dates are modelled as integer millisecond timestamps; the file
system is modelled as the list of file names in the uploads directory.
-/

namespace LibTracker

/-- Reading status: the Book schema's enum ['To Read', 'Reading', 'Read']. -/
inductive Status where
  | toRead
  | reading
  | read
deriving DecidableEq, Repr

/-- A persisted book document (the fields the verified routes touch).
Optional schema paths are `Option`; `tags` defaults to the empty array as a
Mongoose array path does.  `createdAt` comes from the schema's timestamps. -/
structure Book where
  id : Nat
  user : Nat
  title : String
  author : String
  genre : Option String := none
  description : Option String := none
  isbn : Option String := none
  publishedDate : Option String := none
  pageCount : Option Int := none
  rating : Option Int := none
  notes : Option String := none
  tags : List String := []
  status : Status := .toRead
  coverImage : Option String := none
  dateStarted : Option Int := none
  dateFinished : Option Int := none
  readingDuration : Option Int := none
  createdAt : Int := 0
deriving DecidableEq, Repr

/-- The denormalized stats snapshot stored on a user document. -/
structure UserStats where
  totalBooks : Nat := 0
  booksRead : Nat := 0
  currentlyReading : Nat := 0
  toRead : Nat := 0
deriving DecidableEq, Repr

/-- A user document (only the fields the book routes touch). -/
structure User where
  id : Nat
  stats : UserStats := {}
deriving DecidableEq, Repr

/-- The document store: the books and users collections. -/
structure Db where
  books : List Book := []
  users : List User := []
deriving DecidableEq, Repr

/-- Milliseconds per day, the divisor 1000 * 3600 * 24 from the pre-save hook. -/
def msPerDay : Int := 1000 * 3600 * 24

/-- JavaScript's Math.ceil(a / b) for integer a and positive integer b. -/
def jsCeilDiv (a b : Int) : Int := -((-a).fdiv b)

/-- The bookSchema.pre('save') hook of part_001: when the status path is
modified, stamp `dateStarted` on a transition to Reading with no recorded
start, and stamp `dateFinished` (plus `readingDuration`, when a start date
exists) on a transition to Read with no recorded finish. -/
def preSave (statusModified : Bool) (now : Int) (b : Book) : Book :=
  if statusModified then
    let b1 := if b.status = .reading ∧ b.dateStarted = none then
      { b with dateStarted := some now } else b
    if b1.status = .read ∧ b1.dateFinished = none then
      let b2 := { b1 with dateFinished := some now }
      match b2.dateStarted with
      | some s => { b2 with readingDuration := some (jsCeilDiv (now - s) msPerDay) }
      | none => b2
    else b1
  else b

/-- The value produced by the router's Joi schema (part_003): title and
author are required, status is always present (Joi supplies the default
'To Read'), every other key is present only when submitted, and unknown
keys — in particular dateStarted, dateFinished, readingDuration — are
stripped (`stripUnknown: true`). -/
structure BookFields where
  title : String
  author : String
  status : Status := .toRead
  genre : Option String := none
  description : Option String := none
  isbn : Option String := none
  publishedDate : Option String := none
  pageCount : Option Int := none
  rating : Option Int := none
  notes : Option String := none
  tags : Option (List String) := none
deriving DecidableEq, Repr

/-- Keep the new value when the key is present in the update, else the old. -/
def setOpt (new old : Option α) : Option α :=
  match new with
  | some x => some x
  | none => old

/-- `new Book({...value, coverImage, user})` in POST /: a fresh document
built from the validated value; dates and duration start unset. -/
def newBook (freshId uid : Nat) (now : Int) (v : BookFields)
    (cover : Option String) : Book :=
  { id := freshId
    user := uid
    title := v.title
    author := v.author
    status := v.status
    genre := v.genre
    description := v.description
    isbn := v.isbn
    publishedDate := v.publishedDate
    pageCount := v.pageCount
    rating := v.rating
    notes := v.notes
    tags := v.tags.getD []
    coverImage := cover
    createdAt := now }

/-- The `$set: updateData` applied by findOneAndUpdate in PUT /:id: each key
present in the validated value is written; the date and duration paths are
never in `updateData` (stripped by Joi), so they are untouched, as are the
owner, id and createdAt. -/
def applySet (v : BookFields) (cover : Option String) (b : Book) : Book :=
  { b with
    title := v.title
    author := v.author
    status := v.status
    genre := setOpt v.genre b.genre
    description := setOpt v.description b.description
    isbn := setOpt v.isbn b.isbn
    publishedDate := setOpt v.publishedDate b.publishedDate
    pageCount := setOpt v.pageCount b.pageCount
    rating := setOpt v.rating b.rating
    notes := setOpt v.notes b.notes
    tags := v.tags.getD b.tags
    coverImage := setOpt cover b.coverImage }

/-- `Book.findOne({ _id, user })`: lookup scoped to the owning user. -/
def findBook (db : Db) (bid uid : Nat) : Option Book :=
  db.books.find? (fun b => b.id == bid && b.user == uid)

/-- The $match-by-user, $group-by-status aggregation run by
userSchema.methods.updateStats: one (status, count) group per status that
actually occurs among the user's books. -/
def aggregateByStatus (books : List Book) (uid : Nat) : List (Status × Nat) :=
  [Status.toRead, Status.reading, Status.read].filterMap fun s =>
    let c := (books.filter (fun b => b.user == uid && b.status == s)).length
    if c = 0 then none else some (s, c)

/-- The body of updateStats after the aggregation: reset the four counters
to zero, then for each group add its count to totalBooks and overwrite the
matching per-status counter. -/
def applyStatGroups (groups : List (Status × Nat)) : UserStats :=
  groups.foldl
    (fun acc g =>
      let acc1 := { acc with totalBooks := acc.totalBooks + g.2 }
      match g.1 with
      | .read => { acc1 with booksRead := g.2 }
      | .reading => { acc1 with currentlyReading := g.2 }
      | .toRead => { acc1 with toRead := g.2 })
    { totalBooks := 0, booksRead := 0, currentlyReading := 0, toRead := 0 }

/-- userSchema.methods.updateStats: recompute the snapshot wholesale from
the live aggregate over the user's books. -/
def updateStats (books : List Book) (u : User) : User :=
  { u with stats := applyStatGroups (aggregateByStatus books u.id) }

/-- `user.save()` inside updateStats: persist the user document by id. -/
def saveUser (users : List User) (u : User) : List User :=
  users.map fun w => if w.id = u.id then u else w

/-- The post('save') / post('findOneAndDelete') hooks of part_001: look the
owner up and recompute their stats; a missing owner is swallowed (logged
only), leaving the store untouched. -/
def runStatsHook (db : Db) (ownerId : Nat) : Db :=
  match db.users.find? (fun u => u.id == ownerId) with
  | none => db
  | some u => { db with users := saveUser db.users (updateStats db.books u) }

/-- deleteUploadedFile of the upload middleware (part_000): unlink the file
if it exists; modelled on the uploads directory as a list of file names. -/
def deleteUploadedFile (f : String) (fs : List String) : List String :=
  fs.erase f

/-- `if (req.file) deleteUploadedFile(req.file.filename)`. -/
def cleanupFile (file : Option String) (fs : List String) : List String :=
  match file with
  | some f => deleteUploadedFile f fs
  | none => fs

/-- The first list is an initial segment of the second (character-wise
equality); the building block of the startsWith and substring tests. -/
def leadsList : List Char → List Char → Bool
  | [], _ => true
  | _ :: _, [] => false
  | a :: as, b :: bs => a == b && leadsList as bs

/-- JavaScript's `s.startsWith(pre)`. -/
def strBegins (s pre : String) : Bool := leadsList pre.toList s.toList

/-- The '/uploads/' route prefix stripped by
`coverImage.replace('/uploads/', '')`; under the startsWith guard this is
dropping the first 9 characters. -/
def stripUploads (s : String) : String := String.mk (s.toList.drop 9)

/-- The old-cover cleanup shared by PUT /:id and DELETE /:id: delete the
stored cover file when the cover path starts with '/uploads/'. -/
def deleteOldCover (b : Book) (fs : List String) : List String :=
  match b.coverImage with
  | some old =>
    if strBegins old "/uploads/" then deleteUploadedFile (stripUploads old) fs
    else fs
  | none => fs

/-- Responses of the book routes (part_003); constructors carry what the
JSON bodies carry.  payloadTooLarge and unsupportedMedia are the two 400
responses of handleUploadError (part_000) for LIMIT_FILE_SIZE and the
image-only file filter; forbidden (403) appears in no book route and exists
here so that its absence can be stated. -/
inductive Resp where
  | created (b : Book)
  | ok (b : Book)
  | deleted (id : Nat) (title author : String)
  | validationError
  | notFound
  | forbidden
  | serverError
  | payloadTooLarge
  | unsupportedMedia
deriving DecidableEq, Repr

/-- POST / (part_003): validate (a `none` validated value is a Joi error),
delete the uploaded file on validation failure; otherwise build the
document, and on a successful save run pre('save') then persist then the
post('save') stats hook; on a failed save delete the uploaded file and
leave the store untouched. -/
def postBook (db : Db) (fs : List String) (uid : Nat)
    (validated : Option BookFields) (file : Option String)
    (freshId : Nat) (now : Int) (saveOk : Bool) : Resp × Db × List String :=
  match validated with
  | none => (.validationError, db, cleanupFile file fs)
  | some v =>
    if saveOk then
      let b := preSave true now
        (newBook freshId uid now v (file.map (fun f => "/uploads/" ++ f)))
      let db1 : Db := { db with books := b :: db.books }
      (.created b, runStatsHook db1 uid, fs)
    else (.serverError, db, cleanupFile file fs)

/-- Replace the first book matching {_id, user}, as findOneAndUpdate does. -/
def replaceFirstBook (bid uid : Nat) (b : Book) : List Book → List Book
  | [] => []
  | x :: xs =>
    if x.id == bid && x.user == uid then b :: xs
    else x :: replaceFirstBook bid uid b xs

/-- PUT /:id (part_003): validate, look the book up scoped to the caller,
delete the uploaded file on validation failure or a missing book; on a hit
with a new file delete the old cover, then persist via findOneAndUpdate
with `$set: updateData`.  findOneAndUpdate is query middleware: the
pre('save') date stamping and the post('save') stats hook do not run here.
A thrown persistence error (persistOk = false) deletes the new file and
leaves the store untouched. -/
def putBook (db : Db) (fs : List String) (uid bid : Nat)
    (validated : Option BookFields) (file : Option String)
    (persistOk : Bool) : Resp × Db × List String :=
  match validated with
  | none => (.validationError, db, cleanupFile file fs)
  | some v =>
    match findBook db bid uid with
    | none => (.notFound, db, cleanupFile file fs)
    | some existing =>
      let fs1 := match file with
        | some _ => deleteOldCover existing fs
        | none => fs
      if persistOk then
        let b := applySet v (file.map (fun f => "/uploads/" ++ f)) existing
        let db1 : Db := { db with books := replaceFirstBook bid uid b db.books }
        (.ok b, db1, fs1)
      else (.serverError, db, cleanupFile file fs1)

/-- GET /:id (part_003): scoped findOne; a miss is a 404. -/
def getBook (db : Db) (uid bid : Nat) : Resp :=
  match findBook db bid uid with
  | none => .notFound
  | some b => .ok b

/-- DELETE /:id (part_003): scoped findOneAndDelete; a miss is a 404; on a
hit the post('findOneAndDelete') stats hook runs, then the stored cover
file is deleted, and the response repeats id, title and author. -/
def deleteBook (db : Db) (fs : List String) (uid bid : Nat) :
    Resp × Db × List String :=
  match findBook db bid uid with
  | none => (.notFound, db, fs)
  | some b =>
    let db1 : Db :=
      { db with books := db.books.eraseP (fun x => x.id == bid && x.user == uid) }
    let db2 := runStatsHook db1 b.user
    (.deleted b.id b.title b.author, db2, deleteOldCover b fs)

/-- One character of the pattern of `new RegExp(query, 'i')` against one
character of the subject: '.' matches any character, any other character
matches case-insensitively.  This is a model of the JavaScript regex engine
restricted to the pattern forms the theorems below exercise: bare literal
characters and the '.' wildcard. -/
def charMatch (p c : Char) : Bool := p == '.' || p.toLower == c.toLower

/-- The pattern matches a contiguous block at the front of the subject. -/
def matchesHere (pat : List Char) : List Char → Bool
  | s =>
    match pat, s with
    | [], _ => true
    | _ :: _, [] => false
    | p :: ps, c :: cs => charMatch p c && matchesHere ps cs

/-- Unanchored search: the pattern matches at some position of the subject. -/
def regexSearch (pat : List Char) : List Char → Bool
  | [] => matchesHere pat []
  | c :: s1 => matchesHere pat (c :: s1) || regexSearch pat s1

/-- `new RegExp(q, 'i').test(s)` under the restricted pattern model. -/
def regexTestCI (q s : String) : Bool := regexSearch q.toList s.toList

/-- The $or filter of GET /search (part_003): the regex is tested against
title, author, genre, description, notes and each tag; a missing optional
field matches nothing. -/
def fieldMatches (q : String) (b : Book) : Bool :=
  regexTestCI q b.title || regexTestCI q b.author ||
  (b.genre.map (regexTestCI q)).getD false ||
  (b.description.map (regexTestCI q)).getD false ||
  (b.notes.map (regexTestCI q)).getD false ||
  b.tags.any (regexTestCI q)

/-- `.sort({ createdAt: -1 })`: the result list ordered by creation time
descending.  Modelled with insertion sort on the reversed ≤. -/
def sortByCreatedDesc (l : List Book) : List Book :=
  List.insertionSort (fun a b => b.createdAt ≤ a.createdAt) l

/-- Responses of GET /search. -/
inductive SearchResp where
  | badRequest
  | ok (books : List Book)
deriving DecidableEq, Repr

/-- GET /search (part_003): a missing or empty query is a 400; otherwise
the caller's books matching the regex on any searched field, newest
first. -/
def searchBooks (db : Db) (uid : Nat) (query : Option String) : SearchResp :=
  match query with
  | none => .badRequest
  | some q =>
    if q = "" then .badRequest
    else .ok (sortByCreatedDesc
      (db.books.filter (fun b => b.user == uid && fieldMatches q b)))

/-- Spec-side comparator: the first list occurs contiguously in the second. -/
def occursIn (q : List Char) : List Char → Bool
  | [] => leadsList q []
  | c :: s1 => leadsList q (c :: s1) || occursIn q s1

/-- Modelled from the spec: "the query occurs case-insensitively as a
substring" — a case-folded contiguous-substring test. -/
def ciSubstringB (q s : String) : Bool :=
  occursIn (q.toList.map Char.toLower) (s.toList.map Char.toLower)

/-- Modelled from the spec: the query occurs case-insensitively as a
substring of the title, author, genre, description, notes, or any tag. -/
def ciSubstringMatches (q : String) (b : Book) : Bool :=
  ciSubstringB q b.title || ciSubstringB q b.author ||
  (b.genre.map (ciSubstringB q)).getD false ||
  (b.description.map (ciSubstringB q)).getD false ||
  (b.notes.map (ciSubstringB q)).getD false ||
  b.tags.any (ciSubstringB q)

/-- Modelled from the spec: what the search claim says the route returns —
exactly the caller's books in which the query occurs case-insensitively as
a substring of a searched field, ordered by creation time descending. -/
def searchSpec (db : Db) (uid : Nat) (q : String) : List Book :=
  sortByCreatedDesc
    (db.books.filter (fun b => b.user == uid && ciSubstringMatches q b))

/-- A file as multer sees it: generated name, declared content type, size
in bytes. -/
structure UploadFile where
  filename : String
  mimetype : String
  size : Nat
deriving DecidableEq, Repr

/-- The image-only fileFilter of part_000: accept when the declared
content type starts with 'image/'. -/
def fileFilterAccepts (mimetype : String) : Bool :=
  strBegins mimetype "image/"

/-- `parseInt(process.env.MAX_FILE_SIZE) || 5 * 1024 * 1024`. -/
def maxFileSize (env : Option Nat) : Nat := env.getD (5 * 1024 * 1024)

/-- Outcome of the multer middleware for one request. -/
inductive UploadOutcome where
  | ok (f : Option UploadFile)
  | errorNotImage
  | errorFileTooLarge
deriving DecidableEq, Repr

/-- The multer single-file middleware (part_000): the fileFilter rejects a
non-image before anything is written; an accepted file larger than the
configured limit aborts with LIMIT_FILE_SIZE and multer removes what it
wrote, leaving the directory as it was; otherwise the file is stored under
its generated name. -/
def runUpload (env : Option Nat) (f? : Option UploadFile)
    (fs : List String) : UploadOutcome × List String :=
  match f? with
  | none => (.ok none, fs)
  | some f =>
    if !fileFilterAccepts f.mimetype then (.errorNotImage, fs)
    else if f.size > maxFileSize env then (.errorFileTooLarge, fs)
    else (.ok (some f), f.filename :: fs)

/-- POST / behind the upload middleware: a multer error short-circuits to
handleUploadError's 400 response (the route handler never runs, so no book
is created); otherwise the handler runs with the accepted file, if any. -/
def postRoute (env : Option Nat) (db : Db) (fs : List String) (uid : Nat)
    (f? : Option UploadFile) (validated : Option BookFields)
    (freshId : Nat) (now : Int) (saveOk : Bool) : Resp × Db × List String :=
  match runUpload env f? fs with
  | (.errorNotImage, fs1) => (.unsupportedMedia, db, fs1)
  | (.errorFileTooLarge, fs1) => (.payloadTooLarge, db, fs1)
  | (.ok g, fs1) =>
    postBook db fs1 uid validated (g.map (fun f => f.filename)) freshId now saveOk

/-- JavaScript truthiness of an optional string: undefined and '' are falsy. -/
def jsTruthyStr (o : Option String) : Bool :=
  match o with
  | none => false
  | some s => !(s == "")

/-- `a || b` on two optional strings, with '' and undefined falsy. -/
def jsOrStr (a b : Option String) : Option String :=
  match a with
  | some s => if s = "" then b else some s
  | none => b

/-- An entry of volumeInfo.industryIdentifiers. -/
structure Identifier where
  idType : String
  identifier : String
deriving DecidableEq, Repr

/-- volumeInfo.imageLinks. -/
structure ImageLinks where
  thumbnail : Option String := none
  smallThumbnail : Option String := none
deriving DecidableEq, Repr

/-- The volumeInfo of one Google Books item. -/
structure VolumeInfo where
  title : Option String := none
  authors : Option (List String) := none
  categories : Option (List String) := none
  description : Option String := none
  industryIdentifiers : Option (List Identifier) := none
  publishedDate : Option String := none
  pageCount : Option Nat := none
  imageLinks : Option ImageLinks := none
  language : Option String := none
deriving DecidableEq, Repr

/-- The book-submission shape GET /search-external maps each item into. -/
structure NormalizedBook where
  title : String
  author : String
  genre : Option String
  description : String
  isbn : Option String
  publishedDate : String
  pageCount : Option Nat
  coverImage : Option String
  language : String
deriving DecidableEq, Repr

/-- The per-item mapping of GET /search-external (part_003), including the
JavaScript truthiness corner cases: '' falls back through `||`, an empty
categories array yields an undefined genre, pageCount 0 becomes null. -/
def normalizeItem (v : VolumeInfo) : NormalizedBook :=
  { title := match jsOrStr v.title (some "Unknown Title") with
      | some t => t
      | none => "Unknown Title"
    author := match v.authors with
      | some l => String.intercalate ", " l
      | none => "Unknown Author"
    genre := match v.categories with
      | some (c :: _) => some c
      | some [] => none
      | none => some ""
    description := (v.description.getD "")
    isbn := match v.industryIdentifiers with
      | none => some ""
      | some ids =>
        jsOrStr ((ids.find? (fun i => i.idType == "ISBN_13")).map
            (fun i => i.identifier))
          (ids.head?.map (fun i => i.identifier))
    publishedDate := v.publishedDate.getD ""
    pageCount := match v.pageCount with
      | some n => if n = 0 then none else some n
      | none => none
    coverImage := match v.imageLinks with
      | none => none
      | some il => jsOrStr il.thumbnail il.smallThumbnail
    language := match jsOrStr v.language (some "en") with
      | some l => l
      | none => "en" }

/-- Responses of GET /search-external. -/
inductive ExtResp where
  | badRequest
  | notConfigured
  | okList (books : List NormalizedBook)
  | upstreamError
deriving DecidableEq, Repr

/-- GET /search-external (part_003).  The second component records whether
the outbound axios lookup was issued.  A missing or empty query is a 400
before anything else; a missing or empty GOOGLE_BOOKS_API_KEY is the
500 'Google Books API not configured' response, still before any outbound
call; only then is the lookup issued, a response with no items becoming an
empty list and an axios failure the 500 catch-all. -/
def searchExternal (query apiKey : Option String)
    (upstream : Except Unit (Option (List VolumeInfo))) : ExtResp × Bool :=
  if !jsTruthyStr query then (.badRequest, false)
  else if !jsTruthyStr apiKey then (.notConfigured, false)
  else
    match upstream with
    | .error _ => (.upstreamError, true)
    | .ok none => (.okList [], true)
    | .ok (some items) => (.okList (items.map normalizeItem), true)

/-! Concrete fixtures used by the closed theorems and witnesses below. -/

/-- A freshly created book, status To Read, no dates recorded. -/
def bDune : Book := { id := 1, user := 7, title := "Dune", author := "Herbert" }

/-- The owner of bDune, snapshot as recomputed after bDune's creation. -/
def uAlice : User := { id := 7, stats := { totalBooks := 1, toRead := 1 } }

/-- Store holding bDune and its owner. -/
def db0 : Db := { books := [bDune], users := [uAlice] }

/-- A validated submission whose status is Read. -/
def vRead : BookFields := { title := "Dune", author := "Herbert", status := .read }

/-- A validated submission whose status is Reading. -/
def vReading : BookFields := { title := "Dune", author := "Herbert", status := .reading }

/-- A validated submission with the defaulted status To Read. -/
def vToRead : BookFields := { title := "Dune", author := "Herbert" }

/-- A book currently being read, start date recorded. -/
def bStarted : Book := { bDune with status := .reading, dateStarted := some 3 }

/-- A finished book with both dates and the duration recorded. -/
def bDone : Book :=
  { id := 3
    user := 7
    title := "T"
    author := "A"
    status := .read
    dateStarted := some 1
    dateFinished := some 10
    readingDuration := some 2 }

/-- A book with a start date about to be saved with status Read. -/
def bGoing : Book :=
  { id := 4
    user := 7
    title := "T"
    author := "A"
    status := .read
    dateStarted := some 1 }

/-- A book owned by user 8, targeted by user 7 in the C5 witness. -/
def bOther : Book := { id := 1, user := 8, title := "X", author := "Y" }

/-- Store holding only another user's book. -/
def dbOther : Db := { books := [bOther], users := [] }

/-- A book none of whose searched fields contains a '.' character. -/
def bAbc : Book := { id := 2, user := 7, title := "abc", author := "zz" }

/-- The characters that are not plain literals in a JavaScript regular
expression pattern: escapes, anchors, alternation, quantifiers, groups and
classes.  Every other character stands for itself, which is what the
restricted regex model assumes of the pattern. -/
def regexMeta : List Char :=
  ['\\', '^', '$', '.', '|', '?', '*', '+', '(', ')', '[', ']', '\x7b', '\x7d']

/-- A book whose title contains spaces, matched by a space-containing query. -/
def bPile : Book :=
  { id := 5, user := 7, title := "To Read Pile", author := "Various", createdAt := 2 }

/-- Store holding bPile and bDune. -/
def dbPile : Db := { books := [bPile, bDune], users := [] }

/-- An 8 MiB image upload. -/
def f8mb : UploadFile :=
  { filename := "book-cover-1.png", mimetype := "image/png", size := 8 * 1024 * 1024 }

/-- A plain-text upload. -/
def fTxt : UploadFile :=
  { filename := "notes-1.txt", mimetype := "text/plain", size := 10 }

/-! Helper lemmas shared by the claim theorems. -/

/-- Evaluation of the stats fold: the recomputed snapshot is exactly the
three per-status filter counts with their sum as the total. -/
lemma applyStatGroups_aggregate (books : List Book) (uid : Nat) :
    applyStatGroups (aggregateByStatus books uid) =
      { totalBooks :=
          (books.filter (fun b => b.user == uid && b.status == Status.toRead)).length +
          (books.filter (fun b => b.user == uid && b.status == Status.reading)).length +
          (books.filter (fun b => b.user == uid && b.status == Status.read)).length
        booksRead := (books.filter (fun b => b.user == uid && b.status == Status.read)).length
        currentlyReading :=
          (books.filter (fun b => b.user == uid && b.status == Status.reading)).length
        toRead := (books.filter (fun b => b.user == uid && b.status == Status.toRead)).length } := by
  unfold aggregateByStatus
  simp only [List.filterMap_cons, List.filterMap_nil]
  by_cases h1 : (books.filter (fun b => b.user == uid && b.status == Status.toRead)).length = 0 <;>
    by_cases h2 : (books.filter (fun b => b.user == uid && b.status == Status.reading)).length = 0 <;>
      by_cases h3 : (books.filter (fun b => b.user == uid && b.status == Status.read)).length = 0 <;>
        simp only [h1, h2, h3, if_pos, if_neg, ite_true, ite_false, Nat.zero_ne_one] <;>
          simp [applyStatGroups, UserStats.mk.injEq, h1, h2, h3]

/-- Erasing a file that occurred at most once removes it entirely. -/
lemma not_mem_erase_of_count_le_one {l : List String} {f : String}
    (h : l.count f ≤ 1) : f ∉ l.erase f := by
  intro hmem
  have h1 := List.count_erase_self f l
  have h2 : 0 < (l.erase f).count f := List.count_pos_iff.mpr hmem
  omega

/-- Deleting the retiring cover never increases any file's multiplicity. -/
lemma count_deleteOldCover_le (b : Book) (fs : List String) (f : String) :
    (deleteOldCover b fs).count f ≤ fs.count f := by
  unfold deleteOldCover
  cases b.coverImage with
  | none => exact Nat.le_refl _
  | some old =>
    dsimp only
    split
    · exact (List.erase_sublist _ _).count_le f
    · exact Nat.le_refl _

/-- On a pattern character other than '.', the regex character test is the
case-folded character equality. -/
lemma charMatch_of_not_dot {p : Char} (c : Char) (h : p ≠ '.') :
    charMatch p c = (p.toLower == c.toLower) := by
  have : (p == '.') = false := beq_eq_false_iff_ne.mpr h
  simp [charMatch, this]

/-- A dot-free pattern matches at the front exactly when its case-folding
is an initial segment of the subject's case-folding. -/
lemma matchesHere_eq_leadsList (pat : List Char) (hdot : '.' ∉ pat) :
    ∀ s : List Char,
      matchesHere pat s = leadsList (pat.map Char.toLower) (s.map Char.toLower) := by
  induction pat with
  | nil => intro s; cases s <;> rfl
  | cons p ps ih =>
    intro s
    have hp : p ≠ '.' := fun he => hdot (he ▸ List.mem_cons_self p ps)
    have hps : '.' ∉ ps := fun hm => hdot (List.mem_cons_of_mem p hm)
    cases s with
    | nil => rfl
    | cons c cs =>
      show (charMatch p c && matchesHere ps cs) = _
      rw [charMatch_of_not_dot c hp, ih hps cs]
      rfl

/-- A dot-free pattern is found by the unanchored regex search exactly when
its case-folding occurs contiguously in the subject's case-folding. -/
lemma regexSearch_eq_occursIn (pat : List Char) (hdot : '.' ∉ pat) :
    ∀ s : List Char,
      regexSearch pat s = occursIn (pat.map Char.toLower) (s.map Char.toLower) := by
  intro s
  induction s with
  | nil =>
    show matchesHere pat [] = leadsList (pat.map Char.toLower) []
    have := matchesHere_eq_leadsList pat hdot []
    simpa using this
  | cons c cs ih =>
    show (matchesHere pat (c :: cs) || regexSearch pat cs) = _
    rw [matchesHere_eq_leadsList pat hdot (c :: cs), ih]
    rfl

/-- For dot-free queries the route's regex test coincides with the
case-insensitive substring test. -/
lemma regexTestCI_eq_ciSubstringB (q : String) (hdot : '.' ∉ q.toList) :
    regexTestCI q = ciSubstringB q := by
  funext s
  unfold regexTestCI ciSubstringB
  exact regexSearch_eq_occursIn q.toList hdot s.toList

/-! The claim theorems. -/

/-- Claim C1.  The claim says the status-transition rule runs before
persistence on every create and every update.  It does run on create
(`book.save()`), but PUT /:id persists through `findOneAndUpdate`, which
does not run the pre('save') hook: updating bDune (status To Read, no
dates) to status Read stores the book with `dateFinished` and
`readingDuration` still unset, although `preSave` applied to the same data
would have stamped `dateFinished`. -/
theorem c1_put_bypasses_transition_rule :
    (putBook db0 [] 7 1 (some vRead) none true).1 =
      .ok { bDune with status := Status.read } ∧
    (putBook db0 [] 7 1 (some vRead) none true).2.1.books =
      [{ bDune with status := Status.read }] ∧
    ({ bDune with status := Status.read }).dateFinished = none ∧
    ({ bDune with status := Status.read }).readingDuration = none ∧
    (preSave true 5 { bDune with status := Status.read }).dateFinished = some 5 := by
  decide

/-- Claim C2.  The claim says the owner's stats snapshot is recomputed
after every successful create, update and delete.  Create and delete do
recompute it (post('save') / post('findOneAndDelete')), but PUT /:id goes
through `findOneAndUpdate`, for which no hook is registered: after the
update changing bDune from To Read to Read, the stored snapshot still
reads (1,0,0,1) while the live aggregate over the user's books is
(1,1,0,0). -/
theorem c2_put_leaves_stats_stale :
    (putBook db0 [] 7 1 (some vRead) none true).2.1.users = [uAlice] ∧
    uAlice.stats =
      { totalBooks := 1, booksRead := 0, currentlyReading := 0, toRead := 1 } ∧
    (updateStats (putBook db0 [] 7 1 (some vRead) none true).2.1.books uAlice).stats =
      { totalBooks := 1, booksRead := 1, currentlyReading := 0, toRead := 0 } ∧
    (postBook { books := [], users := [{ id := 7 }] } [] 7
        (some vToRead) none 1 0 true).2.1.users = [uAlice] ∧
    (deleteBook db0 [] 7 1).2.1.users =
      [{ id := 7,
         stats := { totalBooks := 0, booksRead := 0, currentlyReading := 0, toRead := 0 } }] := by
  decide

/-- Claim C3.  The claim's preservation half holds (stamped dates are never
overwritten: the update path cannot touch them because Joi strips the date
keys, and the hook only writes an unset date), but dateStarted is NOT "set
the first time status becomes Reading": a book created as To Read and then
updated to Reading keeps dateStarted unset, because the update bypasses the
pre('save') hook.  The final two conjuncts show an already-set dateStarted
surviving both the hook and an update. -/
theorem c3_first_reading_transition_not_stamped :
    (postBook { books := [], users := [{ id := 7 }] } [] 7
        (some vToRead) none 1 0 true).2.1 = db0 ∧
    bDune.dateStarted = none ∧
    (putBook db0 [] 7 1 (some vReading) none true).2.1.books =
      [{ bDune with status := Status.reading }] ∧
    ({ bDune with status := Status.reading }).dateStarted = none ∧
    (preSave true 5 { bDune with status := Status.reading }).dateStarted = some 5 ∧
    (preSave true 9 bStarted).dateStarted = some 3 ∧
    (putBook { books := [bStarted], users := [] } [] 7 1 (some vRead) none true).2.1.books =
      [{ bStarted with status := Status.read }] := by
  decide

/-- Claim C4.  Under the structural invariant that a recorded duration
implies a recorded finish date (established at creation and preserved by
every operation, as the last two conjuncts show): an already-set
readingDuration survives the pre('save') hook unchanged and is never
touched by the update path; and whenever the hook first sets it to d, the
stored dates satisfy d = ceiling of (dateFinished - dateStarted) in days. -/
theorem c4_reading_duration (b : Book) (m : Bool) (now : Int)
    (hInv : b.readingDuration = none ∨ b.dateFinished ≠ none) :
    (∀ d, b.readingDuration = some d → (preSave m now b).readingDuration = some d) ∧
    (∀ d, b.readingDuration = none → (preSave m now b).readingDuration = some d →
      ∃ s, (preSave m now b).dateStarted = some s ∧
        (preSave m now b).dateFinished = some now ∧
        d = jsCeilDiv (now - s) msPerDay) ∧
    (∀ (v : BookFields) (c : Option String),
      (applySet v c b).readingDuration = b.readingDuration ∧
      (applySet v c b).dateStarted = b.dateStarted ∧
      (applySet v c b).dateFinished = b.dateFinished) ∧
    ((preSave m now b).readingDuration = none ∨ (preSave m now b).dateFinished ≠ none) ∧
    (∀ (fid uid : Nat) (n2 : Int) (v : BookFields) (c : Option String),
      (newBook fid uid n2 v c).readingDuration = none ∧
      (newBook fid uid n2 v c).dateFinished = none) := by
  obtain ⟨i1, u1, t1, a1, g1, de1, is1, pu1, pc1, ra1, no1, tg1, st, cv, ds, df, rd, ca⟩ := b
  refine ⟨?_, ?_, fun v c => ⟨rfl, rfl, rfl⟩, ?_, fun fid uid n2 v c => ⟨rfl, rfl⟩⟩ <;>
    cases m <;> cases st <;> rcases ds with _ | s0 <;> rcases df with _ | f0 <;>
      rcases rd with _ | d0 <;> simp_all [preSave, jsCeilDiv]

/-- Witness for C4 at concrete inputs: a recorded duration of 2 days
survives a further save, and the hook stamping a finish at t = 90000000 ms
computes the 2-day ceiling from the start at t = 1 ms. -/
theorem c4_reading_duration_witness :
    (preSave true 99 bDone).readingDuration = some 2 ∧
    (∃ s, (preSave true 90000000 bGoing).dateStarted = some s ∧
      (preSave true 90000000 bGoing).dateFinished = some 90000000 ∧
      (2 : Int) = jsCeilDiv (90000000 - s) msPerDay) :=
  ⟨(c4_reading_duration bDone true 99 (Or.inr (by decide))).1 2 rfl,
   (c4_reading_duration bGoing true 90000000 (Or.inl rfl)).2.1 2 rfl (by decide)⟩

/-- Claim C5.  When no book in the store has the requested id and the
caller as owner — in particular when the book exists but belongs to someone
else, and equally when no such book exists at all — GET, DELETE and PUT all
answer exactly the 404 NotFound response (never Forbidden), and the store
is left untouched. -/
theorem c5_ownership_scoping (db : Db) (fs : List String) (uid bid : Nat)
    (v : BookFields) (file : Option String) (persistOk : Bool)
    (h : ∀ b ∈ db.books, b.id = bid → b.user ≠ uid) :
    getBook db uid bid = .notFound ∧
    getBook db uid bid ≠ .forbidden ∧
    deleteBook db fs uid bid = (.notFound, db, fs) ∧
    putBook db fs uid bid (some v) file persistOk =
      (.notFound, db, cleanupFile file fs) := by
  have hfind : findBook db bid uid = none := by
    rw [findBook, List.find?_eq_none]
    intro x hx
    simp only [Bool.and_eq_true, beq_iff_eq, not_and]
    exact fun h1 h2 => h x hx h1 h2
  refine ⟨?_, ?_, ?_, ?_⟩ <;> simp [getBook, deleteBook, putBook, hfind]

/-- Witness for C5: user 7 targeting the book of user 8. -/
theorem c5_ownership_scoping_witness :
    getBook dbOther 7 1 = .notFound ∧
    getBook dbOther 7 1 ≠ .forbidden ∧
    deleteBook dbOther [] 7 1 = (.notFound, dbOther, []) ∧
    putBook dbOther [] 7 1 (some vRead) none true =
      (.notFound, dbOther, cleanupFile none []) :=
  c5_ownership_scoping dbOther [] 7 1 vRead none true (by decide)

/-- Claim C6.  For a create or update request that accepted a file (present
at most once on disk), every validation or persistence failure deletes the
uploaded file before responding and leaves the books collection
unmodified. -/
theorem c6_file_cleanup (db : Db) (fs : List String) (uid bid freshId : Nat)
    (now : Int) (v? : Option BookFields) (f : String) (saveOk persistOk : Bool)
    (hcount : fs.count f ≤ 1) :
    ((v? = none ∨ saveOk = false) →
      (postBook db fs uid v? (some f) freshId now saveOk).2.1.books = db.books ∧
      f ∉ (postBook db fs uid v? (some f) freshId now saveOk).2.2) ∧
    ((v? = none ∨ persistOk = false) →
      (putBook db fs uid bid v? (some f) persistOk).2.1.books = db.books ∧
      f ∉ (putBook db fs uid bid v? (some f) persistOk).2.2) := by
  constructor
  · rintro (rfl | rfl)
    · exact ⟨rfl, not_mem_erase_of_count_le_one hcount⟩
    · rcases v? with _ | v
      · exact ⟨rfl, not_mem_erase_of_count_le_one hcount⟩
      · exact ⟨rfl, not_mem_erase_of_count_le_one hcount⟩
  · rintro (rfl | rfl)
    · exact ⟨rfl, not_mem_erase_of_count_le_one hcount⟩
    · rcases v? with _ | v
      · exact ⟨rfl, not_mem_erase_of_count_le_one hcount⟩
      · unfold putBook
        cases hfb : findBook db bid uid with
        | none => exact ⟨rfl, not_mem_erase_of_count_le_one hcount⟩
        | some ex =>
          dsimp only
          refine ⟨rfl, ?_⟩
          exact not_mem_erase_of_count_le_one
            (Nat.le_trans (count_deleteOldCover_le ex fs f) hcount)

/-- Witness for C6: a failed validation on create and a failed persistence
on update each remove the uploaded file "up1" and change no book. -/
theorem c6_file_cleanup_witness :
    (postBook db0 ["up1"] 7 none (some "up1") 9 0 true).2.1.books = db0.books ∧
    "up1" ∉ (postBook db0 ["up1"] 7 none (some "up1") 9 0 true).2.2 ∧
    (putBook db0 ["up1"] 7 1 (some vRead) (some "up1") false).2.1.books = db0.books ∧
    "up1" ∉ (putBook db0 ["up1"] 7 1 (some vRead) (some "up1") false).2.2 := by
  have h1 := c6_file_cleanup db0 ["up1"] 7 1 9 0 none "up1" true true (by decide)
  have h2 := c6_file_cleanup db0 ["up1"] 7 1 9 0 (some vRead) "up1" true false (by decide)
  exact ⟨(h1.1 (Or.inl rfl)).1, (h1.1 (Or.inl rfl)).2,
    (h2.2 (Or.inr rfl)).1, (h2.2 (Or.inr rfl)).2⟩

/-- Claim C7.  The byte ceiling defaults to 5 MiB; an image above the
configured ceiling is rejected with the LIMIT_FILE_SIZE 400 response and a
non-image with the image-only 400 response, in both cases with the store
and the uploads directory exactly as they were (no record created, no file
left on disk). -/
theorem c7_upload_limits (env : Option Nat) (db : Db) (fs : List String)
    (uid freshId : Nat) (now : Int) (saveOk : Bool) (v? : Option BookFields)
    (f : UploadFile) :
    maxFileSize none = 5 * 1024 * 1024 ∧
    (fileFilterAccepts f.mimetype = true → f.size > maxFileSize env →
      postRoute env db fs uid (some f) v? freshId now saveOk =
        (.payloadTooLarge, db, fs)) ∧
    (fileFilterAccepts f.mimetype = false →
      postRoute env db fs uid (some f) v? freshId now saveOk =
        (.unsupportedMedia, db, fs)) := by
  refine ⟨rfl, ?_, ?_⟩
  · intro h1 h2
    simp [postRoute, runUpload, h1, h2]
  · intro h1
    simp [postRoute, runUpload, h1]

/-- Witness for C7: the 8 MiB image is rejected as too large and the .txt
file as a non-image, each leaving the store and the directory untouched. -/
theorem c7_upload_limits_witness :
    postRoute none db0 [] 7 (some f8mb) (some vRead) 9 0 true =
      (.payloadTooLarge, db0, []) ∧
    postRoute none db0 [] 7 (some fTxt) (some vRead) 9 0 true =
      (.unsupportedMedia, db0, []) :=
  ⟨(c7_upload_limits none db0 [] 7 9 0 true (some vRead) f8mb).2.1
      (by decide) (by decide),
   (c7_upload_limits none db0 [] 7 9 0 true (some vRead) fTxt).2.2 (by decide)⟩

/-- Counterexample for C8 as stated.  On the store holding only bAbc
(title "abc"), the query "." returns bAbc although "." does not occur
case-insensitively as a substring of any searched field of bAbc: the route
feeds the raw query to the regex engine, where '.' matches any character,
so the result is not "exactly those books in which the query occurs as a
substring". -/
theorem c8_counterexample :
    searchBooks { books := [bAbc], users := [] } 7 (some ".") = .ok [bAbc] ∧
    ciSubstringMatches "." bAbc = false := by
  decide

/-- Claim C8, amended: for every non-empty query containing no regex
metacharacter (no character of regexMeta — spaces, hyphens, apostrophes
and all other literal characters are allowed), the authenticated search
returns exactly the caller's books in which the query occurs
case-insensitively as a substring of the title, author, genre, description,
notes, or a tag, ordered by creation time descending. -/
theorem c8_search_amended (db : Db) (uid : Nat) (q : String)
    (hne : q ≠ "") (hlit : ∀ c ∈ q.data, c ∉ regexMeta) :
    searchBooks db uid (some q) = .ok (searchSpec db uid q) ∧
    (searchSpec db uid q).Perm
      (db.books.filter (fun b => b.user == uid && ciSubstringMatches q b)) ∧
    (searchSpec db uid q).Pairwise (fun a b => b.createdAt ≤ a.createdAt) := by
  have hdot : '.' ∉ q.toList := fun hm => hlit '.' hm (by decide)
  have hfun : regexTestCI q = ciSubstringB q := regexTestCI_eq_ciSubstringB q hdot
  have hmatch : fieldMatches q = ciSubstringMatches q := by
    funext b
    simp [fieldMatches, ciSubstringMatches, hfun]
  refine ⟨?_, ?_, ?_⟩
  · simp [searchBooks, hne, searchSpec, hmatch]
  · exact List.perm_insertionSort _ _
  · haveI : IsTotal Book (fun a b => b.createdAt ≤ a.createdAt) :=
      ⟨fun a b => Int.le_total b.createdAt a.createdAt⟩
    haveI : IsTrans Book (fun a b => b.createdAt ≤ a.createdAt) :=
      ⟨fun a b c h1 h2 => le_trans h2 h1⟩
    exact List.sorted_insertionSort _ _

/-- Witness for the amended C8: the space-containing query "o read" finds
exactly bPile (title "To Read Pile") in dbPile, in creation-descending
order. -/
theorem c8_search_amended_witness :
    searchBooks dbPile 7 (some "o read") = .ok (searchSpec dbPile 7 "o read") ∧
    (searchSpec dbPile 7 "o read").Perm
      (dbPile.books.filter (fun b => b.user == 7 && ciSubstringMatches "o read" b)) ∧
    (searchSpec dbPile 7 "o read").Pairwise (fun a b => b.createdAt ≤ a.createdAt) :=
  c8_search_amended dbPile 7 "o read" (by decide) (by decide)

/-- Claim C9.  A falsy (missing or empty) query is the 400 BadRequest
before anything else; with a truthy query, a falsy GOOGLE_BOOKS_API_KEY is
the not-configured failure, still without any outbound call; only with
both truthy is the outbound lookup issued, and an item list is returned
normalized item by item. -/
theorem c9_external_search (query apiKey : Option String)
    (upstream : Except Unit (Option (List VolumeInfo))) :
    (jsTruthyStr query = false →
      searchExternal query apiKey upstream = (.badRequest, false)) ∧
    (jsTruthyStr query = true → jsTruthyStr apiKey = false →
      searchExternal query apiKey upstream = (.notConfigured, false)) ∧
    (jsTruthyStr query = true → jsTruthyStr apiKey = true →
      (searchExternal query apiKey upstream).2 = true ∧
      (∀ items, upstream = .ok (some items) →
        searchExternal query apiKey upstream =
          (.okList (items.map normalizeItem), true)) ∧
      (upstream = .ok none →
        searchExternal query apiKey upstream = (.okList [], true))) := by
  refine ⟨?_, ?_, ?_⟩
  · intro h1; simp [searchExternal, h1]
  · intro h1 h2; simp [searchExternal, h1, h2]
  · intro h1 h2
    refine ⟨?_, ?_, ?_⟩
    · cases upstream with
      | error e => simp [searchExternal, h1, h2]
      | ok o => cases o <;> simp [searchExternal, h1, h2]
    · rintro items rfl; simp [searchExternal, h1, h2]
    · rintro rfl; simp [searchExternal, h1, h2]

/-- Witness for C9: empty query, missing key, and a configured successful
lookup, each at concrete inputs. -/
theorem c9_external_search_witness :
    searchExternal (some "") (some "k") (.ok none) = (.badRequest, false) ∧
    searchExternal (some "dune") none (.ok none) = (.notConfigured, false) ∧
    searchExternal (some "dune") (some "k") (.ok (some [{ title := some "Dune" }])) =
      (.okList [normalizeItem { title := some "Dune" }], true) := by
  refine ⟨(c9_external_search (some "") (some "k") (.ok none)).1 (by decide),
    (c9_external_search (some "dune") none (.ok none)).2.1 (by decide) (by decide), ?_⟩
  exact ((c9_external_search (some "dune") (some "k")
      (.ok (some [{ title := some "Dune" }]))).2.2
    (by decide) (by decide)).2.1 [{ title := some "Dune" }] rfl

/-- Claim C10.  After updateStats recomputes a user's snapshot, totalBooks
equals booksRead + currentlyReading + toRead, and each per-status counter
equals the number of that user's books with the corresponding status. -/
theorem c10_stats_partition (books : List Book) (u : User) :
    (updateStats books u).stats.totalBooks =
        (updateStats books u).stats.booksRead +
        (updateStats books u).stats.currentlyReading +
        (updateStats books u).stats.toRead ∧
    (updateStats books u).stats.booksRead =
        (books.filter (fun b => b.user == u.id && b.status == Status.read)).length ∧
    (updateStats books u).stats.currentlyReading =
        (books.filter (fun b => b.user == u.id && b.status == Status.reading)).length ∧
    (updateStats books u).stats.toRead =
        (books.filter (fun b => b.user == u.id && b.status == Status.toRead)).length := by
  unfold updateStats
  rw [applyStatGroups_aggregate books u.id]
  dsimp only
  exact ⟨by omega, rfl, rfl, rfl⟩

end LibTracker
